import Mathlib

/-!
Shallow embedding of the supervision / polling / cache control logic of the
Recall desktop client, together with proofs checking the specification
claims against it.

Embedded source units:

* `CreateDeckDialog` (src/createdeckdialog.cpp, src/createdeckdialog.h):
  the job-status poller and the dialog UI state machine.
* `ServerManager` (src/unnamed/part_013): the worker-process supervisor.
* `ResourceCache` (src/unnamed/part_013): the cost-bounded asset cache,
  built on the Qt class `QCache` whose documented eviction semantics are
  modelled here as `QCacheModel`.

Qt timers, network replies and message boxes are represented by explicit
state fields and by parameters carrying the outcome of the external
interaction (reply success or failure, user button choice).  C++ `int`
counters are modelled as `Nat`: they only ever grow by one per callback and
no modelled scenario approaches overflow.
-/

set_option autoImplicit false

namespace Recall

/-! ## CreateDeckDialog: data model -/

/-- The dialog state enum from createdeckdialog.h (`enum class DialogState`). -/
inductive DialogState where
  | Idle
  | Processing
  | Complete
  | Error
deriving DecidableEq, Repr

/-- Enablement and visibility of the dialog widgets that
`CreateDeckDialog::updateUIForState` and
`CreateDeckDialog::enableControls` mutate. -/
structure UIFlags where
  titleEditEnabled : Bool
  fileListEnabled : Bool
  addFilesEnabled : Bool
  removeFileEnabled : Bool
  createDeckEnabled : Bool
  cancelEnabled : Bool
  cancelText : String
  uploadProgressVisible : Bool
  statusLabelVisible : Bool
  progressLabelVisible : Bool
  progressValue : Nat
deriving DecidableEq, Repr

/-- The mutable state of `CreateDeckDialog` relevant to polling and the UI
state machine.  `timerActive` and `timerInterval` model the `statusTimer`
QTimer; `statusReplyInFlight` models whether the `statusReply` pointer is
non-null; `dialogAccepted` records a `QDialog::accept()` call.  `hasTitle`
and `hasFiles` stand for the validation inputs read by
`updateCreateButtonState` (non-empty trimmed title, non-empty file list). -/
structure DialogSt where
  currentState : DialogState
  processingComplete : Bool
  deckId : String
  pollingCounter : Nat
  consecutiveErrorCount : Nat
  currentPollingInterval : Nat
  timerInterval : Nat
  timerActive : Bool
  statusReplyInFlight : Bool
  backgroundModeOffered : Bool
  dialogAccepted : Bool
  hasTitle : Bool
  hasFiles : Bool
  ui : UIFlags
deriving DecidableEq, Repr

/-- Field `basePollingInterval`, initialised to 2000 ms in the constructor. -/
def basePollingInterval : Nat := 2000

/-- Field `maxPollingInterval`, initialised to 10000 ms in the constructor. -/
def maxPollingInterval : Nat := 10000

/-- Model of `QString::toLower` restricted to the ASCII status strings the
dialog compares against: lowercase every character. -/
def qToLower (s : String) : String := String.mk (s.data.map Char.toLower)

/-- Embedding of `CreateDeckDialog::isCompletionStatus` (createdeckdialog.cpp:767-774). -/
def isCompletionStatus (status : String) : Bool :=
  qToLower status == "complete" || qToLower status == "failed"

/-- Embedding of `CreateDeckDialog::enableControls` (createdeckdialog.cpp:804-817), as a
function computing the widget flags.  The create button is enabled only in
`Idle` with passing validation (`updateCreateButtonState`). -/
def enableControls (st : DialogSt) (enabled : Bool) : UIFlags :=
  let ui := { st.ui with
    titleEditEnabled := enabled
    fileListEnabled := enabled
    addFilesEnabled := enabled
    removeFileEnabled := enabled }
  if enabled = true ∧ st.currentState = DialogState.Idle then
    { ui with createDeckEnabled := st.hasTitle && st.hasFiles }
  else
    { ui with createDeckEnabled := false }

/-- The widget flags produced by `CreateDeckDialog::updateUIForState`
(createdeckdialog.cpp:819-886) for the current state. -/
def uiForState (st : DialogSt) : UIFlags :=
  match st.currentState with
  | DialogState.Idle =>
    { enableControls st true with
      cancelEnabled := true
      cancelText := "Cancel"
      uploadProgressVisible := false
      statusLabelVisible := false
      progressLabelVisible := false
      progressValue := 0 }
  | DialogState.Processing =>
    { enableControls st false with
      cancelEnabled := true
      cancelText := "Cancel"
      uploadProgressVisible := true
      statusLabelVisible := true
      progressLabelVisible := true }
  | DialogState.Complete =>
    { enableControls st false with
      cancelEnabled := true
      cancelText := "Done"
      uploadProgressVisible := true
      statusLabelVisible := true
      progressLabelVisible := true
      progressValue := 100 }
  | DialogState.Error =>
    { enableControls st true with
      cancelEnabled := true
      cancelText := "Close"
      uploadProgressVisible := true
      statusLabelVisible := true
      progressLabelVisible := true }

/-- Embedding of `CreateDeckDialog::updateUIForState`: refresh the widgets from the
current state. -/
def updateUIForState (st : DialogSt) : DialogSt :=
  { st with ui := uiForState st }

/-- Embedding of `CreateDeckDialog::setState` (createdeckdialog.cpp:794-802): no-op when
the state does not change, otherwise store the state and refresh the UI. -/
def setState (st : DialogSt) (newState : DialogState) : DialogSt :=
  if st.currentState = newState then st
  else updateUIForState { st with currentState := newState }

/-- Embedding of `CreateDeckDialog::stopStatusPolling` (createdeckdialog.cpp:589-604):
stop the timer, abort and clear any pending status reply, reset the polling
parameters.  Note that `deckId` is left untouched. -/
def stopStatusPolling (st : DialogSt) : DialogSt :=
  { st with
    timerActive := false
    statusReplyInFlight := false
    currentPollingInterval := basePollingInterval
    pollingCounter := 0
    consecutiveErrorCount := 0 }

/-- Embedding of `CreateDeckDialog::checkProcessingStatus` (createdeckdialog.cpp:606-626).
Returns the new state together with whether a network request was issued. -/
def checkProcessingStatus (st : DialogSt) : DialogSt × Bool :=
  if st.deckId = "" ∨ st.processingComplete = true then
    (stopStatusPolling st, false)
  else if st.statusReplyInFlight = true then
    (st, false)
  else
    ({ st with statusReplyInFlight := true }, true)

/-- Embedding of `CreateDeckDialog::startStatusPolling` (createdeckdialog.cpp:571-587):
reset the polling parameters, start the timer at the base interval and run
an initial status check. -/
def startStatusPolling (st : DialogSt) : DialogSt × Bool :=
  if st.deckId = "" then (st, false)
  else
    checkProcessingStatus
      { st with
        currentPollingInterval := basePollingInterval
        pollingCounter := 0
        consecutiveErrorCount := 0
        timerActive := true
        timerInterval := basePollingInterval }

/-- The adaptive interval computed at createdeckdialog.cpp:651-652:
`qMin(maxPollingInterval, static_cast<int>(basePollingInterval * (1 + pollingCounter / 20.0)))`.
Because `basePollingInterval = 2000` is divisible by 20, the double value
`2000 * (1 + c / 20.0) = 2000 + 100 * c` is an exact integer, so the cast
truncation is exact and the computation equals this natural-number formula. -/
def adaptiveInterval (c : Nat) : Nat :=
  min maxPollingInterval (basePollingInterval * (20 + c) / 20)

/-- The error-backoff interval computed at createdeckdialog.cpp:759:
`qMin(maxPollingInterval, basePollingInterval * (1 + consecutiveErrorCount))`
(pure integer arithmetic in the source). -/
def errorBackoffInterval (cec : Nat) : Nat :=
  min maxPollingInterval (basePollingInterval * (1 + cec))

/-- Outcome of a status request, as seen by `onStatusCheckFinished`:
either a successful reply carrying the parsed `status` and `message`
strings, or a network error. -/
inductive PollResponse where
  | success (status message : String)
  | failure
deriving DecidableEq, Repr

/-- Which user dialogs `onStatusCheckFinished` raised during one callback:
the background-processing offer (createdeckdialog.cpp:672) and the
cancel-on-persistent-errors question (createdeckdialog.cpp:739). -/
structure PollPrompts where
  offerAsked : Bool
  cancelAsked : Bool
deriving DecidableEq, Repr

/-- Tail of the success branch of `onStatusCheckFinished`
(createdeckdialog.cpp:699-725 and 763-764): completion detection followed by
the reply cleanup. -/
def finishSuccess (st : DialogSt) (status : String) : DialogSt :=
  let st :=
    if isCompletionStatus status = true then
      let st := { st with processingComplete := true }
      let st := stopStatusPolling st
      if qToLower status = "complete" then
        { setState st DialogState.Complete with dialogAccepted := true }
      else if qToLower status = "failed" then
        setState st DialogState.Error
      else st
    else st
  { st with statusReplyInFlight := false }

/-- Tail of the error branch of `onStatusCheckFinished`
(createdeckdialog.cpp:757-764): rearm the timer with the error-backoff
interval (note: only the QTimer interval is set; the member
`currentPollingInterval` is not written on this path) and clean up the
reply. -/
def finishFailure (st : DialogSt) : DialogSt :=
  { st with
    timerInterval := errorBackoffInterval st.consecutiveErrorCount
    statusReplyInFlight := false }

/-- Embedding of `CreateDeckDialog::onStatusCheckFinished` (createdeckdialog.cpp:628-765).
`bgChoice` is the user answer to the background-processing offer (`true` =
continue in background), `cancelChoice` the answer to the
cancel-on-persistent-errors question (`true` = cancel).  Returns the new
state and which questions were raised. -/
def onStatusCheckFinished (st : DialogSt) (resp : PollResponse)
    (bgChoice cancelChoice : Bool) : DialogSt × PollPrompts :=
  if st.statusReplyInFlight = false then (st, ⟨false, false⟩)
  else
    let st := { st with pollingCounter := st.pollingCounter + 1 }
    match resp with
    | PollResponse.success status _message =>
      let st := { st with consecutiveErrorCount := 0 }
      let st : DialogSt :=
        if 10 < st.pollingCounter ∧ qToLower status = "processing" then
          let iv := adaptiveInterval st.pollingCounter
          { st with currentPollingInterval := iv, timerInterval := iv }
        else st
      if (15 < st.pollingCounter ∧ qToLower status = "processing")
          ∧ (60 < st.pollingCounter ∧ st.backgroundModeOffered = false) then
        let st := { st with backgroundModeOffered := true }
        if bgChoice = true then
          (({ stopStatusPolling st with dialogAccepted := true } : DialogSt), ⟨true, false⟩)
        else
          (finishSuccess { st with pollingCounter := 40 } status, ⟨true, false⟩)
      else
        (finishSuccess st status, ⟨false, false⟩)
    | PollResponse.failure =>
      let st := { st with consecutiveErrorCount := st.consecutiveErrorCount + 1 }
      if 10 < st.consecutiveErrorCount then
        if cancelChoice = true then
          (setState st DialogState.Error, ⟨false, true⟩)
        else
          (finishFailure { st with consecutiveErrorCount := 4 }, ⟨false, true⟩)
      else
        (finishFailure st, ⟨false, false⟩)

/-- The widget flags after the constructor has run (`setupUI` plus the
initial `updateCreateButtonState`; the trailing `setState(Idle)` is a no-op
because `currentState` is initialised to `Idle`). -/
def initialUI : UIFlags :=
  { titleEditEnabled := true
    fileListEnabled := true
    addFilesEnabled := true
    removeFileEnabled := true
    createDeckEnabled := false
    cancelEnabled := true
    cancelText := "Cancel"
    uploadProgressVisible := false
    statusLabelVisible := false
    progressLabelVisible := false
    progressValue := 0 }

/-- The dialog state established by the `CreateDeckDialog` constructor
(createdeckdialog.cpp:11). -/
def mkDialogSt : DialogSt :=
  { currentState := DialogState.Idle
    processingComplete := false
    deckId := ""
    pollingCounter := 0
    consecutiveErrorCount := 0
    currentPollingInterval := basePollingInterval
    timerInterval := 0
    timerActive := false
    statusReplyInFlight := false
    backgroundModeOffered := false
    dialogAccepted := false
    hasTitle := false
    hasFiles := false
    ui := initialUI }

/-! ## ServerManager: the process supervisor -/

/-- Embedding of `ServerManager::ServerState`. -/
inductive ServerState where
  | Stopped
  | Starting
  | Running
  | Stopping
  | Error
deriving DecidableEq, Repr

/-- The mutable state of `ServerManager` relevant to the claims.
`healthTimerActive` models the `healthCheckTimer` QTimer; `processExists`
models a non-null `serverProcess` pointer. -/
structure ServerSt where
  currentState : ServerState
  retryCount : Nat
  maxRetries : Nat
  healthTimerActive : Bool
  processExists : Bool
deriving DecidableEq, Repr

/-- Signals emitted and process signals sent during one `ServerManager`
call: `serverReady`, `serverError`, and the counts of
`QProcess::terminate()` and `QProcess::kill()` invocations. -/
structure ServerEvents where
  readyEmitted : Bool
  errorEmitted : Bool
  terminateSignals : Nat
  killSignals : Nat
deriving DecidableEq, Repr

/-- The empty event record. -/
def ServerEvents.nothing : ServerEvents :=
  { readyEmitted := false, errorEmitted := false
    terminateSignals := 0, killSignals := 0 }

/-- The supervisor state established by the `ServerManager` constructor
(part_013:749-762). -/
def mkServerSt : ServerSt :=
  { currentState := ServerState.Stopped
    retryCount := 0
    maxRetries := 30
    healthTimerActive := false
    processExists := false }

/-- Embedding of `ServerManager::stopServer` (part_013:809-829).  `processRunning` is
whether `serverProcess->state() != QProcess::NotRunning`;
`exitedWithinT1` is the result of `waitForFinished(10000)` after
`terminate()`; the result of the second `waitForFinished(3000)` after
`kill()` is ignored by the source, hence the unused parameter. -/
def stopServer (st : ServerSt)
    (processRunning exitedWithinT1 _exitedWithinT2 : Bool) :
    ServerSt × ServerEvents :=
  if st.currentState = ServerState.Stopped ∨ st.currentState = ServerState.Stopping then
    (st, ServerEvents.nothing)
  else
    let signal := st.processExists && processRunning
    ({ st with
        currentState := ServerState.Stopped
        healthTimerActive := false
        processExists := false },
     { readyEmitted := false
       errorEmitted := false
       terminateSignals := if signal then 1 else 0
       killSignals := if signal && !exitedWithinT1 then 1 else 0 })

/-- Embedding of `ServerManager::checkServerHealth` (part_013:845-865): a probe is issued
only while `Starting` or `Running`.  Returns whether a probe was issued. -/
def checkServerHealth (st : ServerSt) : ServerSt × Bool :=
  if st.currentState = ServerState.Starting ∨ st.currentState = ServerState.Running then
    (st, true)
  else (st, false)

/-- Embedding of `ServerManager::onHealthCheckReply` (part_013:910-936).  `success` is
whether the reply finished without error (a 2xx readiness response). -/
def onHealthCheckReply (st : ServerSt) (success : Bool) : ServerSt × ServerEvents :=
  if success = true then
    if st.currentState = ServerState.Starting then
      ({ st with currentState := ServerState.Running, healthTimerActive := false },
       { ServerEvents.nothing with readyEmitted := true })
    else (st, ServerEvents.nothing)
  else
    let st := { st with retryCount := st.retryCount + 1 }
    if st.maxRetries ≤ st.retryCount then
      ({ st with healthTimerActive := false, currentState := ServerState.Error },
       { ServerEvents.nothing with errorEmitted := true })
    else (st, ServerEvents.nothing)

/-- Embedding of `ServerManager::onProcessFinished` (part_013:873-885): process exit is
success during `Stopping` and an error in every other state. -/
def onProcessFinished (st : ServerSt) : ServerSt × ServerEvents :=
  let st := { st with healthTimerActive := false }
  if st.currentState = ServerState.Stopping then
    ({ st with currentState := ServerState.Stopped }, ServerEvents.nothing)
  else
    ({ st with currentState := ServerState.Error },
     { ServerEvents.nothing with errorEmitted := true })

/-! ## ResourceCache and the QCache model -/

/-- Model of the Qt class `QCache` as instantiated by `ResourceCache`
(part_013:997-1106): an association list of keys and costs kept in recency
order with the least-recently-used entry first and the most-recently-used
entry last, plus the maximum total cost `mx`.  The cached payloads are
irrelevant to the cost accounting and are not modelled. -/
structure QCacheModel where
  entries : List (String × Nat)
  mx : Nat
deriving DecidableEq, Repr

/-- Total cost of a list of cache entries. -/
def listCost (l : List (String × Nat)) : Nat := (l.map Prod.snd).sum

/-- Total cost of the live entries of a cache. -/
def QCacheModel.totalCost (c : QCacheModel) : Nat := listCost c.entries

/-- Remove every entry stored under a key (QCache remove). -/
def removeKey (l : List (String × Nat)) (k : String) : List (String × Nat) :=
  l.filter (fun e => e.fst != k)

/-- QCache trim: evict entries starting from the least-recently-used end
until the total cost is within `budget`. -/
def trim (budget : Nat) : List (String × Nat) → List (String × Nat)
  | [] => []
  | e :: rest =>
    if listCost (e :: rest) ≤ budget then e :: rest
    else trim budget rest

/-- QCache insert with an explicit cost (qcache.h): an object whose cost
exceeds the budget is rejected (the key is removed and the object deleted);
otherwise any old entry for the key is removed, least-recently-used entries
are evicted until the new object fits, and it is inserted as
most-recently-used.  Returns whether the insert took place. -/
def QCacheModel.insert (c : QCacheModel) (k : String) (cost : Nat) :
    QCacheModel × Bool :=
  if c.mx < cost then
    ({ c with entries := removeKey c.entries k }, false)
  else
    ({ c with entries := trim (c.mx - cost) (removeKey c.entries k) ++ [(k, cost)] },
     true)

/-- QCache contains. -/
def QCacheModel.contains (c : QCacheModel) (k : String) : Bool :=
  c.entries.any (fun e => e.fst == k)

/-- QCache object lookup: a hit returns the stored cost and promotes the
entry to most-recently-used. -/
def QCacheModel.object (c : QCacheModel) (k : String) : QCacheModel × Option Nat :=
  match c.entries.find? (fun e => e.fst == k) with
  | none => (c, none)
  | some e => ({ c with entries := removeKey c.entries k ++ [e] }, some e.snd)

/-- The mutable state of `ResourceCache` (part_013:997-1118): the static
image cache, the animation cache, and the hit/miss statistics. -/
structure ResourceCacheSt where
  imageCache : QCacheModel
  animationCache : QCacheModel
  hitCount : Nat
  missCount : Nat
deriving DecidableEq, Repr

/-- The cache state established by the `ResourceCache` constructor
(part_013:997-1007): the image cache budget is raised to
`100 * 1024 * 1024` bytes by `setMaxCost`; the animation cache keeps its
constructor budget of 20 (each animation is inserted with the default
cost 1). -/
def mkResourceCacheSt : ResourceCacheSt :=
  { imageCache := { entries := [], mx := 100 * 1024 * 1024 }
    animationCache := { entries := [], mx := 20 }
    hitCount := 0
    missCount := 0 }

/-- Embedding of `ResourceCache::getImage` (part_013:1014-1033).  `load` is the result of
constructing `QPixmap(path)` on a miss: `none` for a null pixmap, otherwise
the pixel dimensions, giving the insert cost `width * height * 4`. -/
def getImage (st : ResourceCacheSt) (path : String) (load : Option (Nat × Nat)) :
    ResourceCacheSt :=
  match st.imageCache.object path with
  | (ic, some _) => { st with imageCache := ic, hitCount := st.hitCount + 1 }
  | (_, none) =>
    let st := { st with missCount := st.missCount + 1 }
    match load with
    | none => st
    | some (w, h) =>
      { st with imageCache := (st.imageCache.insert path (w * h * 4)).fst }

/-- Embedding of `ResourceCache::preloadImage` (part_013:1035-1046). -/
def preloadImage (st : ResourceCacheSt) (path : String) (load : Option (Nat × Nat)) :
    ResourceCacheSt :=
  if st.imageCache.contains path then st
  else
    match load with
    | none => st
    | some (w, h) =>
      { st with imageCache := (st.imageCache.insert path (w * h * 4)).fst }

/-- Embedding of `ResourceCache::getAnimation` (part_013:1055-1077).  `valid` is whether
`QMovie(path)` is valid; a valid movie is inserted with the default QCache
cost of 1. -/
def getAnimation (st : ResourceCacheSt) (path : String) (valid : Bool) :
    ResourceCacheSt :=
  match st.animationCache.object path with
  | (ac, some _) => { st with animationCache := ac, hitCount := st.hitCount + 1 }
  | (_, none) =>
    let st := { st with missCount := st.missCount + 1 }
    if valid then
      { st with animationCache := (st.animationCache.insert path 1).fst }
    else st

/-- Embedding of `ResourceCache::preloadAnimation` (part_013:1079-1092). -/
def preloadAnimation (st : ResourceCacheSt) (path : String) (valid : Bool) :
    ResourceCacheSt :=
  if st.animationCache.contains path then st
  else if valid then
    { st with animationCache := (st.animationCache.insert path 1).fst }
  else st

/-- A concrete mid-poll state: job `d` being processed, timer armed, one
status request in flight. -/
def stPolling : DialogSt :=
  { mkDialogSt with
    currentState := DialogState.Processing
    deckId := "d"
    timerActive := true
    timerInterval := basePollingInterval
    statusReplyInFlight := true }

/-- Concrete polling state used in the C2 counterexample: poll count 10,
request in flight, base interval in force. -/
def stC2 : DialogSt :=
  { mkDialogSt with
    currentState := DialogState.Processing
    deckId := "d"
    pollingCounter := 10
    timerActive := true
    timerInterval := basePollingInterval
    statusReplyInFlight := true }

/-- Concrete polling state used for claims C3 and C4: ten consecutive
errors already recorded, the timer capped at the maximum interval. -/
def stC4 : DialogSt :=
  { mkDialogSt with
    currentState := DialogState.Processing
    deckId := "d"
    pollingCounter := 20
    consecutiveErrorCount := 10
    timerActive := true
    timerInterval := maxPollingInterval
    statusReplyInFlight := true }

/-- Concrete polling state used for claim C3: three consecutive errors,
timer at the backoff interval those errors produced. -/
def stC3 : DialogSt :=
  { mkDialogSt with
    currentState := DialogState.Processing
    deckId := "d"
    pollingCounter := 5
    consecutiveErrorCount := 3
    timerActive := true
    timerInterval := 8000
    statusReplyInFlight := true }

/-- Concrete polling state used for claim C8: sixty polls done, request in
flight, offer not yet made. -/
def stC8 : DialogSt :=
  { mkDialogSt with
    currentState := DialogState.Processing
    deckId := "d"
    pollingCounter := 60
    timerActive := true
    timerInterval := maxPollingInterval
    currentPollingInterval := maxPollingInterval
    statusReplyInFlight := true }

/-- Backoff-cap invariant: once the error counter has reached 4, the last
interval written to the status timer was capped at `maxPollingInterval`
(every write of the timer interval on an error tick with counter at least 4
is `min maxPollingInterval x` with `x` at least 10000).  It holds for the
constructor state and is preserved by every poller operation
(`errCapInv_invariant`). -/
def ErrCapInv (st : DialogSt) : Prop :=
  4 ≤ st.consecutiveErrorCount → st.timerInterval = maxPollingInterval

/-- Concrete supervisor state: worker launched, health probing under way. -/
def stStarting : ServerSt :=
  { currentState := ServerState.Starting
    retryCount := 0
    maxRetries := 30
    healthTimerActive := true
    processExists := true }

/-- Concrete supervisor state: worker running. -/
def stRunning : ServerSt :=
  { currentState := ServerState.Running
    retryCount := 0
    maxRetries := 30
    healthTimerActive := true
    processExists := true }

/-- QCache invariant: the total cost of the live entries is within the
budget. -/
def QCacheInv (c : QCacheModel) : Prop := listCost c.entries ≤ c.mx

/-- Concrete cache state holding one small image entry. -/
def stCacheOne : ResourceCacheSt :=
  { mkResourceCacheSt with
    imageCache := { entries := [("small", 100)], mx := 100 * 1024 * 1024 } }

/-! ## Helper lemmas -/

theorem isCompletionStatus_ne_processing {status : String}
    (h : isCompletionStatus status = true) : ¬ qToLower status = "processing" := by
  intro hp
  unfold isCompletionStatus at h
  rw [hp] at h
  exact absurd h (by decide)

theorem processing_not_terminal {status : String}
    (h : qToLower status = "processing") : isCompletionStatus status = false := by
  unfold isCompletionStatus
  rw [h]
  decide

@[simp] theorem setState_processingComplete (st : DialogSt) (n : DialogState) :
    (setState st n).processingComplete = st.processingComplete := by
  unfold setState updateUIForState
  split <;> rfl

@[simp] theorem setState_timerActive (st : DialogSt) (n : DialogState) :
    (setState st n).timerActive = st.timerActive := by
  unfold setState updateUIForState
  split <;> rfl

@[simp] theorem setState_statusReplyInFlight (st : DialogSt) (n : DialogState) :
    (setState st n).statusReplyInFlight = st.statusReplyInFlight := by
  unfold setState updateUIForState
  split <;> rfl

@[simp] theorem setState_timerInterval (st : DialogSt) (n : DialogState) :
    (setState st n).timerInterval = st.timerInterval := by
  unfold setState updateUIForState
  split <;> rfl

@[simp] theorem setState_consecutiveErrorCount (st : DialogSt) (n : DialogState) :
    (setState st n).consecutiveErrorCount = st.consecutiveErrorCount := by
  unfold setState updateUIForState
  split <;> rfl

@[simp] theorem setState_pollingCounter (st : DialogSt) (n : DialogState) :
    (setState st n).pollingCounter = st.pollingCounter := by
  unfold setState updateUIForState
  split <;> rfl

@[simp] theorem setState_deckId (st : DialogSt) (n : DialogState) :
    (setState st n).deckId = st.deckId := by
  unfold setState updateUIForState
  split <;> rfl

@[simp] theorem setState_backgroundModeOffered (st : DialogSt) (n : DialogState) :
    (setState st n).backgroundModeOffered = st.backgroundModeOffered := by
  unfold setState updateUIForState
  split <;> rfl

@[simp] theorem setState_dialogAccepted (st : DialogSt) (n : DialogState) :
    (setState st n).dialogAccepted = st.dialogAccepted := by
  unfold setState updateUIForState
  split <;> rfl

@[simp] theorem setState_currentPollingInterval (st : DialogSt) (n : DialogState) :
    (setState st n).currentPollingInterval = st.currentPollingInterval := by
  unfold setState updateUIForState
  split <;> rfl

/-! ## Claim C1 -/

set_option maxHeartbeats 1600000 in
/-- C1: for every polled status response whose status string is terminal
(case-insensitively `complete` or `failed`), and only for those, the poller
treats the job as terminal: `processingComplete` is set, the poll timer is
cancelled, the reply is cleared, and no later status-check tick issues a
request once `processingComplete` holds. -/
theorem c1_terminal_statuses_stop_polling (st : DialogSt) (status msg : String)
    (bg cc : Bool) (hin : st.statusReplyInFlight = true) :
    (isCompletionStatus status = true →
      (onStatusCheckFinished st (PollResponse.success status msg) bg cc).fst.processingComplete = true
      ∧ (onStatusCheckFinished st (PollResponse.success status msg) bg cc).fst.timerActive = false
      ∧ (onStatusCheckFinished st (PollResponse.success status msg) bg cc).fst.statusReplyInFlight = false)
    ∧ (isCompletionStatus status = false →
      (onStatusCheckFinished st (PollResponse.success status msg) bg cc).fst.processingComplete
        = st.processingComplete)
    ∧ (∀ s : DialogSt, s.processingComplete = true →
      (checkProcessingStatus s).snd = false
      ∧ (checkProcessingStatus s).fst.processingComplete = true) := by
  refine ⟨?_, ?_, ?_⟩
  · intro hterm
    have hproc := isCompletionStatus_ne_processing hterm
    unfold onStatusCheckFinished finishSuccess
    simp only [hin]
    split_ifs <;> simp_all [stopStatusPolling]
  · intro hterm
    unfold onStatusCheckFinished finishSuccess
    simp only [hin]
    split_ifs <;> simp_all [stopStatusPolling]
  · intro s hs
    unfold checkProcessingStatus
    by_cases hd : s.deckId = "" <;> simp [hd, hs, stopStatusPolling]

/-- C1 witness: a concrete terminal response (`Complete`, mixed case) at a
concrete polling state. -/
theorem c1_witness :
    (onStatusCheckFinished stPolling
        (PollResponse.success "Complete" "done") false false).fst.processingComplete = true
    ∧ (onStatusCheckFinished stPolling
        (PollResponse.success "Complete" "done") false false).fst.timerActive = false :=
  ⟨((c1_terminal_statuses_stop_polling stPolling
      "Complete" "done" false false rfl).1 (by decide)).1,
   ((c1_terminal_statuses_stop_polling stPolling
      "Complete" "done" false false rfl).1 (by decide)).2.1⟩

/-! ## Claim C2 -/

/-- C2 counterexample: a successful poll with the non-terminal status
`submitted` at poll count 11 leaves both the member interval and the timer
interval at 2000 ms, whereas the claimed formula
min(10000, 2000 * (1 + 11/20)) gives 3100 ms: the growth applies only to
the status string `processing`, not to every non-terminal status. -/
theorem c2_counterexample :
    10 < (onStatusCheckFinished stC2 (PollResponse.success "submitted" "") false false).fst.pollingCounter
    ∧ isCompletionStatus "submitted" = false
    ∧ (onStatusCheckFinished stC2 (PollResponse.success "submitted" "") false false).fst.currentPollingInterval = 2000
    ∧ (onStatusCheckFinished stC2 (PollResponse.success "submitted" "") false false).fst.timerInterval = 2000
    ∧ adaptiveInterval (onStatusCheckFinished stC2 (PollResponse.success "submitted" "") false false).fst.pollingCounter = 3100
    ∧ ¬ (onStatusCheckFinished stC2 (PollResponse.success "submitted" "") false false).fst.currentPollingInterval
        = adaptiveInterval (onStatusCheckFinished stC2 (PollResponse.success "submitted" "") false false).fst.pollingCounter := by
  decide

set_option maxHeartbeats 1600000 in
/-- C2 (amended): for every successful poll tick whose reported status
lowercases to exactly `processing` (the only non-terminal status the source
treats adaptively), with the incremented poll count above 10, and where the
tick does not end with the user accepting the background handoff, both the
member interval and the timer interval equal
min(maxInterval, baseInterval * (1 + pollCount/20)) evaluated at the
incremented poll count; and that formula is monotone non-decreasing in the
poll count. -/
theorem c2_adaptive_growth (st : DialogSt) (status msg : String) (bg cc : Bool)
    (hin : st.statusReplyInFlight = true)
    (hproc : qToLower status = "processing")
    (hcount : 10 < st.pollingCounter + 1)
    (hbg : ¬ (60 < st.pollingCounter + 1 ∧ st.backgroundModeOffered = false ∧ bg = true)) :
    ((onStatusCheckFinished st (PollResponse.success status msg) bg cc).fst.currentPollingInterval
        = adaptiveInterval (st.pollingCounter + 1)
      ∧ (onStatusCheckFinished st (PollResponse.success status msg) bg cc).fst.timerInterval
        = adaptiveInterval (st.pollingCounter + 1))
    ∧ (∀ a b : Nat, a ≤ b → adaptiveInterval a ≤ adaptiveInterval b) := by
  have hterm := processing_not_terminal hproc
  constructor
  · unfold onStatusCheckFinished finishSuccess
    simp only [hin]
    split_ifs <;> simp_all [stopStatusPolling]
  · intro a b hab
    unfold adaptiveInterval
    exact min_le_min (le_refl _)
      (Nat.div_le_div_right (Nat.mul_le_mul_left _ (by omega)))

/-- C2 witness: at poll count 11 with status `processing`, the interval
becomes 3100 ms. -/
theorem c2_witness :
    (onStatusCheckFinished stC2 (PollResponse.success "processing" "") false false).fst.currentPollingInterval
      = adaptiveInterval (stC2.pollingCounter + 1)
    ∧ adaptiveInterval (stC2.pollingCounter + 1) = 3100 :=
  ⟨((c2_adaptive_growth stC2 "processing" "" false false rfl (by decide) (by decide)
      (by decide)).1).1,
   by decide⟩

/-! ## Claim C3 -/

@[simp] theorem setState_currentState (st : DialogSt) (n : DialogState) :
    (setState st n).currentState = n := by
  unfold setState updateUIForState
  split
  · assumption
  · rfl

theorem check_no_request_when_inflight (s : DialogSt)
    (h : s.statusReplyInFlight = true) : (checkProcessingStatus s).snd = false := by
  unfold checkProcessingStatus
  split_ifs <;> simp_all

set_option maxHeartbeats 1600000 in
/-- The backoff-cap invariant holds for the constructor state and is
preserved by every poller operation. -/
theorem errCapInv_invariant (st : DialogSt) (resp : PollResponse) (bg cc : Bool)
    (h : ErrCapInv st) :
    ErrCapInv (onStatusCheckFinished st resp bg cc).fst
    ∧ ErrCapInv (stopStatusPolling st)
    ∧ ErrCapInv (startStatusPolling st).fst
    ∧ ErrCapInv (checkProcessingStatus st).fst
    ∧ ErrCapInv mkDialogSt := by
  unfold ErrCapInv at h ⊢
  refine ⟨?_, ?_, ?_, ?_, ?_⟩
  · cases resp with
    | success status msg =>
      unfold onStatusCheckFinished finishSuccess
      by_cases hin : st.statusReplyInFlight = false
      · simp only [hin, if_pos]
        exact h
      · simp only [hin]
        split_ifs <;> simp_all [stopStatusPolling]
    | failure =>
      unfold onStatusCheckFinished finishFailure
      by_cases hin : st.statusReplyInFlight = false
      · simp only [hin, if_pos]
        exact h
      · simp only [hin]
        split_ifs <;>
          simp_all [errorBackoffInterval, basePollingInterval, maxPollingInterval] <;>
          omega
  · simp [stopStatusPolling]
  · unfold startStatusPolling checkProcessingStatus
    split_ifs <;> simp_all [stopStatusPolling]
  · unfold checkProcessingStatus
    split_ifs <;> simp_all [stopStatusPolling]
  · simp [mkDialogSt]

set_option maxHeartbeats 1600000 in
/-- C3: on every failed status check the error counter is incremented (and,
below the escalation threshold, ends exactly one higher), and the interval
written to the status timer equals
min(maxInterval, baseInterval * (1 + consecutiveErrorCount)) at the
resulting error count, the backoff-cap invariant covering the escalation
path on which the source leaves the previously written (already capped)
interval in place; the next successful response resets the error counter to
zero. -/
theorem c3_error_backoff (st : DialogSt) (bg cc : Bool) (status msg : String)
    (hin : st.statusReplyInFlight = true) (hinv : ErrCapInv st) :
    ((onStatusCheckFinished st PollResponse.failure bg cc).fst.timerInterval
        = min maxPollingInterval
            (basePollingInterval
              * (1 + (onStatusCheckFinished st PollResponse.failure bg cc).fst.consecutiveErrorCount))
      ∧ (st.consecutiveErrorCount + 1 ≤ 10 →
          (onStatusCheckFinished st PollResponse.failure bg cc).fst.consecutiveErrorCount
            = st.consecutiveErrorCount + 1))
    ∧ (onStatusCheckFinished st (PollResponse.success status msg) bg cc).fst.consecutiveErrorCount
        = 0 := by
  unfold ErrCapInv at hinv
  constructor
  · unfold onStatusCheckFinished finishFailure
    simp only [hin]
    split_ifs <;>
      simp_all [errorBackoffInterval, basePollingInterval, maxPollingInterval] <;>
      omega
  · unfold onStatusCheckFinished finishSuccess
    simp only [hin]
    split_ifs <;> simp_all [stopStatusPolling]

/-- C3 witness: a fourth consecutive failure takes the timer interval to
min(10000, 2000 * (1 + 4)) = 10000 with the counter at 4, and a subsequent
success resets the counter. -/
theorem c3_witness :
    ((onStatusCheckFinished stC3 PollResponse.failure false false).fst.timerInterval
        = min maxPollingInterval
            (basePollingInterval
              * (1 + (onStatusCheckFinished stC3 PollResponse.failure false false).fst.consecutiveErrorCount))
      ∧ (onStatusCheckFinished stC3 PollResponse.failure false false).fst.consecutiveErrorCount = 4)
    ∧ (onStatusCheckFinished stC3 (PollResponse.success "processing" "") false false).fst.consecutiveErrorCount
        = 0 :=
  ⟨⟨(c3_error_backoff stC3 false false "processing" "" rfl (fun hc => absurd hc (by decide))).1.1,
    (c3_error_backoff stC3 false false "processing" "" rfl (fun hc => absurd hc (by decide))).1.2
      (by decide)⟩,
   (c3_error_backoff stC3 false false "processing" "" rfl (fun hc => absurd hc (by decide))).2⟩

/-! ## Claim C4 -/

/-- C4 counterexample: with ten errors recorded and in flight reply, the
eleventh failure raises the cancel offer; when the user cancels, the source
sets the Error state and returns early, so the poll timer is still armed
and the reply handle is neither aborted nor released, contrary to the
claim that the in-flight request is aborted and the poll timer stopped. -/
theorem c4_counterexample :
    (onStatusCheckFinished stC4 PollResponse.failure false true).fst.currentState = DialogState.Error
    ∧ (onStatusCheckFinished stC4 PollResponse.failure false true).fst.timerActive = true
    ∧ (onStatusCheckFinished stC4 PollResponse.failure false true).fst.statusReplyInFlight = true := by
  decide

set_option maxHeartbeats 1600000 in
/-- C4 (amended): when the consecutive error count exceeds 10, the poller
offers the user the choice to cancel; if the user cancels, the dialog
enters `Error` and no further status request is issued (the retained reply
handle suppresses every later tick), but the poll timer is left running
with its previous interval and the finished reply is neither aborted nor
released; if the user declines, the error counter is reset to 4. -/
theorem c4_persistent_error_escalation (st : DialogSt) (bg cc : Bool)
    (hin : st.statusReplyInFlight = true)
    (hesc : 10 < st.consecutiveErrorCount + 1) :
    (onStatusCheckFinished st PollResponse.failure bg cc).snd.cancelAsked = true
    ∧ (cc = true →
        (onStatusCheckFinished st PollResponse.failure bg cc).fst.currentState = DialogState.Error
        ∧ (onStatusCheckFinished st PollResponse.failure bg cc).fst.timerActive = st.timerActive
        ∧ (onStatusCheckFinished st PollResponse.failure bg cc).fst.timerInterval = st.timerInterval
        ∧ (onStatusCheckFinished st PollResponse.failure bg cc).fst.statusReplyInFlight = true
        ∧ (checkProcessingStatus (onStatusCheckFinished st PollResponse.failure bg cc).fst).snd
            = false)
    ∧ (cc = false →
        (onStatusCheckFinished st PollResponse.failure bg cc).fst.consecutiveErrorCount = 4) := by
  have hreq : ∀ s : DialogSt, s.statusReplyInFlight = true → (checkProcessingStatus s).snd = false :=
    check_no_request_when_inflight
  unfold onStatusCheckFinished finishFailure
  simp only [hin]
  split_ifs <;> simp_all

/-- C4 witness: declining the cancel offer resets the error counter to 4. -/
theorem c4_witness :
    (onStatusCheckFinished stC4 PollResponse.failure false false).snd.cancelAsked = true
    ∧ (onStatusCheckFinished stC4 PollResponse.failure false false).fst.consecutiveErrorCount = 4 :=
  ⟨(c4_persistent_error_escalation stC4 false false rfl (by decide)).1,
   (c4_persistent_error_escalation stC4 false false rfl (by decide)).2.2 rfl⟩

/-! ## Claim C7 -/

/-- C7 counterexample: `stopStatusPolling` does not clear the active job
id: after the call the deck id is still `deck-42`, contrary to the claim
that the active job id is cleared. -/
theorem c7_counterexample :
    (stopStatusPolling { stPolling with deckId := "deck-42" }).deckId = "deck-42"
    ∧ ¬ (stopStatusPolling { stPolling with deckId := "deck-42" }).deckId = "" := by
  decide

/-- C7 (amended): `stopStatusPolling` is safe to call from any state and
idempotent; it disarms the timer, aborts and clears any in-flight reply,
and resets the counters and the adaptive interval, but the active job id is
retained, not cleared. -/
theorem c7_stop_polling_idempotent (st : DialogSt) :
    stopStatusPolling (stopStatusPolling st) = stopStatusPolling st
    ∧ (stopStatusPolling st).timerActive = false
    ∧ (stopStatusPolling st).statusReplyInFlight = false
    ∧ (stopStatusPolling st).pollingCounter = 0
    ∧ (stopStatusPolling st).consecutiveErrorCount = 0
    ∧ (stopStatusPolling st).currentPollingInterval = basePollingInterval
    ∧ (stopStatusPolling st).deckId = st.deckId :=
  ⟨rfl, rfl, rfl, rfl, rfl, rfl, rfl⟩

/-! ## Claim C8 -/

set_option maxHeartbeats 2000000 in
/-- C8: the background-processing offer is raised only on a successful poll
whose incremented count exceeds 60, with the (non-terminal) status
`processing` and the offer not yet made for this job; `backgroundModeOffered`
never falls back from true under any poller operation; if the user accepts,
polling stops and the dialog is accepted (closed); if the user declines,
the offer flag is set and the poll count is reduced to 40. -/
theorem c8_background_offer_once :
    (∀ (st : DialogSt) (status msg : String) (bg cc : Bool),
        (onStatusCheckFinished st (PollResponse.success status msg) bg cc).snd.offerAsked = true →
          60 < st.pollingCounter + 1
          ∧ st.backgroundModeOffered = false
          ∧ qToLower status = "processing"
          ∧ isCompletionStatus status = false)
    ∧ (∀ (st : DialogSt) (bg cc : Bool),
        (onStatusCheckFinished st PollResponse.failure bg cc).snd.offerAsked = false)
    ∧ (∀ (st : DialogSt) (resp : PollResponse) (bg cc : Bool),
        st.backgroundModeOffered = true →
          (onStatusCheckFinished st resp bg cc).fst.backgroundModeOffered = true)
    ∧ (∀ st : DialogSt, st.backgroundModeOffered = true →
        (stopStatusPolling st).backgroundModeOffered = true
        ∧ (startStatusPolling st).fst.backgroundModeOffered = true
        ∧ (checkProcessingStatus st).fst.backgroundModeOffered = true
        ∧ ∀ n : DialogState, (setState st n).backgroundModeOffered = true)
    ∧ (∀ (st : DialogSt) (status msg : String) (cc : Bool),
        (onStatusCheckFinished st (PollResponse.success status msg) true cc).snd.offerAsked = true →
          (onStatusCheckFinished st (PollResponse.success status msg) true cc).fst.timerActive = false
          ∧ (onStatusCheckFinished st (PollResponse.success status msg) true cc).fst.dialogAccepted
              = true)
    ∧ (∀ (st : DialogSt) (status msg : String) (cc : Bool),
        (onStatusCheckFinished st (PollResponse.success status msg) false cc).snd.offerAsked = true →
          (onStatusCheckFinished st (PollResponse.success status msg) false cc).fst.backgroundModeOffered
              = true
          ∧ (onStatusCheckFinished st (PollResponse.success status msg) false cc).fst.pollingCounter
              = 40) := by
  refine ⟨?_, ?_, ?_, ?_, ?_, ?_⟩
  · intro st status msg bg cc h
    revert h
    unfold onStatusCheckFinished finishSuccess
    by_cases hin : st.statusReplyInFlight = false
    · simp [hin]
    · by_cases hp : qToLower status = "processing" <;>
        by_cases h15 : 15 < st.pollingCounter + 1 <;>
        by_cases h60 : 60 < st.pollingCounter + 1 <;>
        by_cases h10 : 10 < st.pollingCounter + 1 <;>
        by_cases hoff : st.backgroundModeOffered = false <;>
        simp [hin, hp, h15, h60, h10, hoff, stopStatusPolling, processing_not_terminal]
  · intro st bg cc
    unfold onStatusCheckFinished finishFailure
    by_cases hin : st.statusReplyInFlight = false
    · simp [hin]
    · by_cases hc : 10 < st.consecutiveErrorCount + 1 <;>
        by_cases hcc : cc = true <;>
        simp [hin, hc, hcc]
  · intro st resp bg cc h
    cases resp with
    | success status msg =>
      unfold onStatusCheckFinished finishSuccess
      by_cases hin : st.statusReplyInFlight = false
      · simp [hin, h]
      · by_cases hp : qToLower status = "processing" <;>
          by_cases h15 : 15 < st.pollingCounter + 1 <;>
          by_cases h60 : 60 < st.pollingCounter + 1 <;>
          by_cases h10 : 10 < st.pollingCounter + 1 <;>
          by_cases hbg : bg = true <;>
          simp [hin, hp, h15, h60, h10, h, hbg, stopStatusPolling,
            processing_not_terminal] <;>
          split_ifs <;>
          simp [h]
    | failure =>
      unfold onStatusCheckFinished finishFailure
      by_cases hin : st.statusReplyInFlight = false
      · simp [hin, h]
      · by_cases hc : 10 < st.consecutiveErrorCount + 1 <;>
          by_cases hcc : cc = true <;>
          simp [hin, hc, hcc, h]
  · intro st h
    refine ⟨h, ?_, ?_, ?_⟩
    · unfold startStatusPolling checkProcessingStatus
      split_ifs <;> simp_all [stopStatusPolling]
    · unfold checkProcessingStatus
      split_ifs <;> simp_all [stopStatusPolling]
    · intro n
      simp [h]
  · intro st status msg cc h
    revert h
    unfold onStatusCheckFinished finishSuccess
    by_cases hin : st.statusReplyInFlight = false
    · simp [hin]
    · by_cases hp : qToLower status = "processing" <;>
        by_cases h15 : 15 < st.pollingCounter + 1 <;>
        by_cases h60 : 60 < st.pollingCounter + 1 <;>
        by_cases h10 : 10 < st.pollingCounter + 1 <;>
        by_cases hoff : st.backgroundModeOffered = false <;>
        simp [hin, hp, h15, h60, h10, hoff, stopStatusPolling, processing_not_terminal]
  · intro st status msg cc h
    revert h
    unfold onStatusCheckFinished finishSuccess
    by_cases hin : st.statusReplyInFlight = false
    · simp [hin]
    · by_cases hp : qToLower status = "processing" <;>
        by_cases h15 : 15 < st.pollingCounter + 1 <;>
        by_cases h60 : 60 < st.pollingCounter + 1 <;>
        by_cases h10 : 10 < st.pollingCounter + 1 <;>
        by_cases hoff : st.backgroundModeOffered = false <;>
        simp [hin, hp, h15, h60, h10, hoff, stopStatusPolling, processing_not_terminal]

/-- C8 witness: at poll count 61 with the offer not yet made, declining
sets the offer flag and reduces the poll count to 40. -/
theorem c8_witness :
    (onStatusCheckFinished stC8 (PollResponse.success "processing" "") false false).fst.backgroundModeOffered
      = true
    ∧ (onStatusCheckFinished stC8 (PollResponse.success "processing" "") false false).fst.pollingCounter
      = 40 :=
  c8_background_offer_once.2.2.2.2.2 stC8 "processing" "" false (by decide)

/-! ## Claim C10 -/

/-- C10 counterexample: in the `Error` state the source re-enables the
input controls (`enableControls(true)`), so it is false that no controls
except a close affordance are enabled in `Error`. -/
theorem c10_counterexample :
    (updateUIForState { mkDialogSt with currentState := DialogState.Error }).ui.titleEditEnabled = true
    ∧ (updateUIForState { mkDialogSt with currentState := DialogState.Error }).ui.addFilesEnabled = true
    ∧ (updateUIForState { mkDialogSt with currentState := DialogState.Error }).ui.removeFileEnabled = true := by
  decide

/-- C10 (amended): each dialog state maps deterministically to control
enablement: in `Idle` all input controls are enabled with the create
control additionally gated by validation (non-empty title and at least one
file); in `Processing` only the cancel control is enabled; in `Complete`
no input controls are enabled and the cancel control acts as the close
affordance (`Done`); in `Error` the input controls are re-enabled, the
create control stays disabled and the cancel control acts as close
(`Close`); and re-entering the current state is a no-op performing no UI
refresh. -/
theorem c10_state_ui_map (st : DialogSt) :
    ((updateUIForState { st with currentState := DialogState.Idle }).ui.titleEditEnabled = true
      ∧ (updateUIForState { st with currentState := DialogState.Idle }).ui.fileListEnabled = true
      ∧ (updateUIForState { st with currentState := DialogState.Idle }).ui.addFilesEnabled = true
      ∧ (updateUIForState { st with currentState := DialogState.Idle }).ui.removeFileEnabled = true
      ∧ (updateUIForState { st with currentState := DialogState.Idle }).ui.createDeckEnabled
          = (st.hasTitle && st.hasFiles)
      ∧ (updateUIForState { st with currentState := DialogState.Idle }).ui.cancelEnabled = true)
    ∧ ((updateUIForState { st with currentState := DialogState.Processing }).ui.titleEditEnabled = false
      ∧ (updateUIForState { st with currentState := DialogState.Processing }).ui.fileListEnabled = false
      ∧ (updateUIForState { st with currentState := DialogState.Processing }).ui.addFilesEnabled = false
      ∧ (updateUIForState { st with currentState := DialogState.Processing }).ui.removeFileEnabled = false
      ∧ (updateUIForState { st with currentState := DialogState.Processing }).ui.createDeckEnabled = false
      ∧ (updateUIForState { st with currentState := DialogState.Processing }).ui.cancelEnabled = true)
    ∧ ((updateUIForState { st with currentState := DialogState.Complete }).ui.titleEditEnabled = false
      ∧ (updateUIForState { st with currentState := DialogState.Complete }).ui.fileListEnabled = false
      ∧ (updateUIForState { st with currentState := DialogState.Complete }).ui.addFilesEnabled = false
      ∧ (updateUIForState { st with currentState := DialogState.Complete }).ui.removeFileEnabled = false
      ∧ (updateUIForState { st with currentState := DialogState.Complete }).ui.createDeckEnabled = false
      ∧ (updateUIForState { st with currentState := DialogState.Complete }).ui.cancelEnabled = true
      ∧ (updateUIForState { st with currentState := DialogState.Complete }).ui.cancelText = "Done")
    ∧ ((updateUIForState { st with currentState := DialogState.Error }).ui.titleEditEnabled = true
      ∧ (updateUIForState { st with currentState := DialogState.Error }).ui.fileListEnabled = true
      ∧ (updateUIForState { st with currentState := DialogState.Error }).ui.addFilesEnabled = true
      ∧ (updateUIForState { st with currentState := DialogState.Error }).ui.removeFileEnabled = true
      ∧ (updateUIForState { st with currentState := DialogState.Error }).ui.createDeckEnabled = false
      ∧ (updateUIForState { st with currentState := DialogState.Error }).ui.cancelEnabled = true
      ∧ (updateUIForState { st with currentState := DialogState.Error }).ui.cancelText = "Close")
    ∧ setState st st.currentState = st := by
  refine ⟨?_, ?_, ?_, ?_, ?_⟩ <;>
    simp [updateUIForState, uiForState, enableControls, setState]

/-! ## Claim C5 -/

/-- C5 counterexample: on the first successful probe in `Starting` the
source transitions to `Running` and stops the health-check timer
(part_013:923), so periodic health-check probing does not continue while
`Running`, contrary to the claim that it is not stopped on reaching
`Running`. -/
theorem c5_counterexample :
    (onHealthCheckReply stStarting true).fst.currentState = ServerState.Running
    ∧ (onHealthCheckReply stStarting true).snd.readyEmitted = true
    ∧ (onHealthCheckReply stStarting true).fst.healthTimerActive = false := by
  decide

/-- C5 (amended): a successful health probe received in `Starting`
transitions the supervisor to `Running`, emits the ready notification and
stops the health-check timer, so no further periodic probes occur while
`Running`; liveness failure while `Running` is detected through the
process-exit handler, which transitions to `Error` and emits an error,
not through a failed probe. -/
theorem c5_ready_stops_probing (st : ServerSt)
    (h : st.currentState = ServerState.Starting) :
    (onHealthCheckReply st true).fst.currentState = ServerState.Running
    ∧ (onHealthCheckReply st true).snd.readyEmitted = true
    ∧ (onHealthCheckReply st true).fst.healthTimerActive = false
    ∧ (∀ s : ServerSt, s.currentState = ServerState.Running →
        (onProcessFinished s).fst.currentState = ServerState.Error
        ∧ (onProcessFinished s).snd.errorEmitted = true) := by
  refine ⟨by simp [onHealthCheckReply, h], by simp [onHealthCheckReply, h],
    by simp [onHealthCheckReply, h], ?_⟩
  intro s hs
  constructor <;> simp [onProcessFinished, hs]

/-- C5 witness: the concrete `Starting` supervisor reaches `Running` with
the ready signal emitted. -/
theorem c5_witness :
    (onHealthCheckReply stStarting true).fst.currentState = ServerState.Running
    ∧ (onHealthCheckReply stStarting true).fst.healthTimerActive = false :=
  ⟨(c5_ready_stops_probing stStarting rfl).1,
   (c5_ready_stops_probing stStarting rfl).2.2.1⟩

/-! ## Claim C6 -/

/-- C6: `stopServer` is idempotent — a second call is a no-op producing no
further terminate or kill signals; any call that runs the shutdown
protocol ends in `Stopped` regardless of whether the process exited within
the graceful (T1) or forced (T2) timeouts; and a process exit observed
while `Stopping` yields `Stopped` with no error, never `Error`. -/
theorem c6_stop_idempotent :
    (∀ (st : ServerSt) (p1 t1 t2 p2 u1 u2 : Bool),
        stopServer (stopServer st p1 t1 t2).fst p2 u1 u2
          = ((stopServer st p1 t1 t2).fst, ServerEvents.nothing))
    ∧ (∀ (st : ServerSt) (p t1 t2 : Bool),
        ¬ st.currentState = ServerState.Stopped →
        ¬ st.currentState = ServerState.Stopping →
          (stopServer st p t1 t2).fst.currentState = ServerState.Stopped)
    ∧ (∀ st : ServerSt, st.currentState = ServerState.Stopping →
        (onProcessFinished st).fst.currentState = ServerState.Stopped
        ∧ (onProcessFinished st).snd.errorEmitted = false) := by
  refine ⟨?_, ?_, ?_⟩
  · intro st p1 t1 t2 p2 u1 u2
    unfold stopServer
    split_ifs <;> simp_all [ServerEvents.nothing]
  · intro st p t1 t2 h1 h2
    unfold stopServer
    split_ifs <;> simp_all
  · intro st h
    constructor <;> simp [onProcessFinished, h, ServerEvents.nothing]

/-- C6 witness: stopping a running supervisor ends in `Stopped`, and a
second stop call is a no-op with no further signals. -/
theorem c6_witness :
    (stopServer stRunning true false false).fst.currentState = ServerState.Stopped
    ∧ stopServer (stopServer stRunning true false false).fst true false false
        = ((stopServer stRunning true false false).fst, ServerEvents.nothing) :=
  ⟨c6_stop_idempotent.2.1 stRunning true false false (by decide) (by decide),
   c6_stop_idempotent.1 stRunning true false false true false false⟩

/-! ## Claim C9 -/

theorem listCost_cons (e : String × Nat) (l : List (String × Nat)) :
    listCost (e :: l) = e.snd + listCost l := by
  simp [listCost]

theorem listCost_append (l1 l2 : List (String × Nat)) :
    listCost (l1 ++ l2) = listCost l1 + listCost l2 := by
  simp [listCost]

theorem listCost_trim_le (budget : Nat) (l : List (String × Nat)) :
    listCost (trim budget l) ≤ budget := by
  induction l with
  | nil => simp [trim, listCost]
  | cons e rest ih =>
    unfold trim
    split_ifs with h
    · exact h
    · exact ih

theorem trim_suffix (budget : Nat) (l : List (String × Nat)) :
    (trim budget l).IsSuffix l := by
  induction l with
  | nil => simp [trim]
  | cons e rest ih =>
    unfold trim
    split_ifs with h
    · exact List.suffix_rfl
    · exact ih.trans (List.suffix_cons e rest)

theorem listCost_filter_le (p : String × Nat → Bool) (l : List (String × Nat)) :
    listCost (l.filter p) ≤ listCost l := by
  induction l with
  | nil => simp [listCost]
  | cons e rest ih =>
    by_cases h : p e <;>
      simp [listCost_cons, List.filter, h] <;>
      have := ih <;> simp [listCost] at this ⊢ <;> omega

theorem listCost_removeKey_le (l : List (String × Nat)) (k : String) :
    listCost (removeKey l k) ≤ listCost l :=
  listCost_filter_le _ l

theorem listCost_promote_le (l : List (String × Nat)) (k : String) (e : String × Nat)
    (h : l.find? (fun x => x.fst == k) = some e) :
    listCost (removeKey l k ++ [e]) ≤ listCost l := by
  induction l with
  | nil => simp [List.find?] at h
  | cons a rest ih =>
    by_cases hp : (a.fst == k) = true
    · simp only [List.find?, hp, Option.some.injEq] at h
      subst h
      have h2 : removeKey (a :: rest) k = removeKey rest k := by
        simp [removeKey, List.filter, hp, bne]
      rw [h2, listCost_append]
      have h3 := listCost_removeKey_le rest k
      have h4 : listCost [a] = a.snd := by simp [listCost]
      have h5 : listCost (a :: rest) = a.snd + listCost rest := listCost_cons a rest
      omega
    · rw [Bool.not_eq_true] at hp
      simp only [List.find?, hp] at h
      have h2 : removeKey (a :: rest) k = a :: removeKey rest k := by
        simp [removeKey, List.filter, hp, bne]
      rw [h2, List.cons_append, listCost_cons, listCost_cons]
      have h3 := ih h
      omega

theorem qcache_insert_inv (c : QCacheModel) (k : String) (cost : Nat)
    (h : QCacheInv c) : QCacheInv (c.insert k cost).fst := by
  unfold QCacheModel.insert QCacheInv at *
  split_ifs with hc
  · exact le_trans (listCost_removeKey_le c.entries k) h
  · have ht := listCost_trim_le (c.mx - cost) (removeKey c.entries k)
    simp [listCost_append, listCost_cons, listCost]
    simp [listCost] at ht
    omega

theorem qcache_object_inv (c : QCacheModel) (k : String) (h : QCacheInv c) :
    QCacheInv (c.object k).fst := by
  unfold QCacheModel.object QCacheInv at *
  cases hf : c.entries.find? (fun e => e.fst == k) with
  | none => simpa using h
  | some e =>
    simp only []
    exact le_trans (listCost_promote_le c.entries k e hf) h

theorem getImage_inv (st : ResourceCacheSt) (path : String)
    (load : Option (Nat × Nat)) (hi : QCacheInv st.imageCache) :
    QCacheInv (getImage st path load).imageCache := by
  unfold getImage
  have hob := qcache_object_inv st.imageCache path hi
  rcases hobj : st.imageCache.object path with ⟨ic, r⟩
  rw [hobj] at hob
  cases r with
  | some v => simpa using hob
  | none =>
    cases load with
    | none => simpa using hi
    | some wh =>
      rcases wh with ⟨w, ht⟩
      simpa using qcache_insert_inv st.imageCache path (w * ht * 4) hi

theorem preloadImage_inv (st : ResourceCacheSt) (path : String)
    (load : Option (Nat × Nat)) (hi : QCacheInv st.imageCache) :
    QCacheInv (preloadImage st path load).imageCache := by
  unfold preloadImage
  split_ifs
  · exact hi
  · cases load with
    | none => exact hi
    | some wh =>
      rcases wh with ⟨w, ht⟩
      simpa using qcache_insert_inv st.imageCache path (w * ht * 4) hi

theorem getAnimation_inv (st : ResourceCacheSt) (path : String) (valid : Bool)
    (ha : QCacheInv st.animationCache) :
    QCacheInv (getAnimation st path valid).animationCache := by
  unfold getAnimation
  have hob := qcache_object_inv st.animationCache path ha
  rcases hobj : st.animationCache.object path with ⟨ac, r⟩
  rw [hobj] at hob
  cases r with
  | some v => simpa using hob
  | none =>
    cases valid with
    | true => simpa using qcache_insert_inv st.animationCache path 1 ha
    | false => simpa using ha

theorem preloadAnimation_inv (st : ResourceCacheSt) (path : String) (valid : Bool)
    (ha : QCacheInv st.animationCache) :
    QCacheInv (preloadAnimation st path valid).animationCache := by
  unfold preloadAnimation
  split_ifs
  · exact ha
  · simpa using qcache_insert_inv st.animationCache path 1 ha
  · exact ha

/-- C9 counterexample: inserting an image whose cost `5121 * 5120 * 4`
exceeds the image-class budget is rejected outright — nothing is evicted
and the new entry is not live afterwards — contrary to the claim that such
an insert evicts least-recently-used entries until the post-insert total
(which would include the new entry) is within budget. -/
theorem c9_counterexample :
    stCacheOne.imageCache.mx < 5121 * 5120 * 4
    ∧ (getImage stCacheOne "big" (some (5121, 5120))).imageCache.contains "big" = false
    ∧ (getImage stCacheOne "big" (some (5121, 5120))).imageCache.entries = [("small", 100)] := by
  decide

/-- C9 (amended): for each asset class, if the total cost is within the
budget then it remains within the budget after any cache operation (get or
preload of an image or animation); an insert whose cost fits the budget
evicts least-recently-used entries of the same class until the new entry
fits and then inserts it (so the post-insert total is within budget); an
insert whose cost alone exceeds the budget is rejected and evicts nothing
(only any previous entry under the same key is removed); and trimming
removes entries only from the least-recently-used end (the result is a
suffix in LRU-first order) leaving a total within the trim budget. -/
theorem c9_cache_invariant (st : ResourceCacheSt)
    (hi : QCacheInv st.imageCache) (ha : QCacheInv st.animationCache) :
    (∀ (path : String) (load : Option (Nat × Nat)),
        QCacheInv (getImage st path load).imageCache
        ∧ QCacheInv (preloadImage st path load).imageCache)
    ∧ (∀ (path : String) (valid : Bool),
        QCacheInv (getAnimation st path valid).animationCache
        ∧ QCacheInv (preloadAnimation st path valid).animationCache)
    ∧ (∀ (c : QCacheModel) (k : String) (cost : Nat),
        QCacheInv c → QCacheInv (c.insert k cost).fst)
    ∧ (∀ (c : QCacheModel) (k : String) (cost : Nat), cost ≤ c.mx →
        (c.insert k cost).snd = true
        ∧ (c.insert k cost).fst.entries
            = trim (c.mx - cost) (removeKey c.entries k) ++ [(k, cost)])
    ∧ (∀ (c : QCacheModel) (k : String) (cost : Nat), c.mx < cost →
        (c.insert k cost).snd = false
        ∧ (c.insert k cost).fst.entries = removeKey c.entries k)
    ∧ (∀ (budget : Nat) (l : List (String × Nat)),
        listCost (trim budget l) ≤ budget ∧ (trim budget l).IsSuffix l) := by
  refine ⟨?_, ?_, ?_, ?_, ?_, ?_⟩
  · intro path load
    exact ⟨getImage_inv st path load hi, preloadImage_inv st path load hi⟩
  · intro path valid
    exact ⟨getAnimation_inv st path valid ha, preloadAnimation_inv st path valid ha⟩
  · intro c k cost hc
    exact qcache_insert_inv c k cost hc
  · intro c k cost hc
    unfold QCacheModel.insert
    rw [if_neg (by omega)]
    exact ⟨rfl, rfl⟩
  · intro c k cost hc
    unfold QCacheModel.insert
    rw [if_pos hc]
    exact ⟨rfl, rfl⟩
  · intro budget l
    exact ⟨listCost_trim_le budget l, trim_suffix budget l⟩

/-- C9 witness: a fresh cache accepts a small image within budget. -/
theorem c9_witness :
    QCacheInv (getImage mkResourceCacheSt "p" (some (2, 2))).imageCache :=
  ((c9_cache_invariant mkResourceCacheSt
      (by simp [QCacheInv, mkResourceCacheSt, listCost])
      (by simp [QCacheInv, mkResourceCacheSt, listCost])).1 "p" (some (2, 2))).1

end Recall
